import Mathlib

/-
Verification development for the shapelet design-matrix engine
(src/src/MatrixBuilder.cc of the lsst shapelet repository).

The matrix builders are embedded shallowly over the reals:
sample coordinates become functions from sample index to a real,
matrices become functions from row and column index to a real, and
the C++ classes become structures whose mutable scratch members are
threaded explicitly through the apply step.  Collaborators that the
source file only uses through their headers (the ellipse geometry
library, the Gauss-Hermite convolution operator, the packed index
enumeration and the numeric constants of the shapelet library) are
modelled from the specification and clearly marked as such.
-/

namespace Shapelet

/-- computeSize from the shapelet library: the number of basis columns
for a shapelet expansion of maximum order n, the triangular count
(n+1)(n+2)/2.  Used throughout MatrixBuilder.cc for basis sizes. -/
def computeSize (order : ℕ) : ℕ := (order + 1) * (order + 2) / 2

/-- Modelled from the spec: one step of the PackedIndex increment
operator.  PackedIndex enumerates (degree-in-x, degree-in-y) pairs by
increasing total order; within an order the x degree decreases from
the order down to zero while the y degree increases. -/
def packedStep : ℕ × ℕ → ℕ × ℕ
  | (x, y) => if x = 0 then (x + y + 1, 0) else (x - 1, y + 1)

/-- Modelled from the spec: the (degree-in-x, degree-in-y) pair that
the PackedIndex enumeration assigns to packed column index i.  Column
0 holds (0,0); each further column applies the increment. -/
def packedPair : ℕ → ℕ × ℕ
  | 0 => (0, 0)
  | n + 1 => packedStep (packedPair n)

/-- Modelled from the spec: the Gaussian-basis normalization constant
BASIS_NORMALIZATION of the shapelet library (the value written into the
degree-0 entry of each Hermite recurrence table).  Its closed form is
the fourth root of pi inverted, so that the product of an x-axis and a
y-axis degree-0 value is the Gaussian norm 1/sqrt(pi). -/
noncomputable def BASIS_NORMALIZATION : ℝ := 1 / Real.sqrt (Real.sqrt Real.pi)

/-- Modelled from the spec: intSqrt of the shapelet library, the real
square root of a small integer. -/
noncomputable def intSqrt (n : ℕ) : ℝ := Real.sqrt n

/-- Modelled from the spec: rationalSqrt of the shapelet library, the
real square root of a ratio of small integers. -/
noncomputable def rationalSqrt (n d : ℕ) : ℝ := Real.sqrt ((n : ℝ) / (d : ℝ))

/-- The grid transform of an ellipse, with the component layout used by
EllipseHelper::readEllipse: a linear part (xx, xy, yx, yy) and a
translation (x, y). -/
structure AffineTransform where
  xx : ℝ
  xy : ℝ
  yx : ℝ
  yy : ℝ
  x : ℝ
  y : ℝ

/-- An ellipse, represented by the data the builders consume from it:
its grid (world to unit circle) affine transform, which the external
geometry collaborator computes. -/
structure Ellipse where
  gridTransform : AffineTransform

/-- The state held by EllipseHelper: the two transformed coordinate
sequences xt and yt and the determinant factor of the grid transform's
linear part. -/
@[ext]
structure EllState where
  xt : ℕ → ℝ
  yt : ℕ → ℝ
  detFactor : ℝ

/-- EllipseHelper::readEllipse: applies the ellipse's grid transform
elementwise to the cached sample coordinates and records the linear
determinant as the scale factor. -/
noncomputable def readEllipse (x y : ℕ → ℝ) (e : Ellipse) : EllState :=
  { xt := fun p => e.gridTransform.xx * x p + e.gridTransform.xy * y p + e.gridTransform.x
    yt := fun p => e.gridTransform.yx * x p + e.gridTransform.yy * y p + e.gridTransform.y
    detFactor := e.gridTransform.xx * e.gridTransform.yy - e.gridTransform.xy * e.gridTransform.yx }

/-- EllipseHelper::scale: divides both transformed coordinate sequences
by a scalar; the determinant factor is left unchanged. -/
noncomputable def ellScale (es : EllState) (factor : ℝ) : EllState :=
  { es with xt := fun p => es.xt p / factor, yt := fun p => es.yt p / factor }

/-- The NORM constant of GaussianHelper: 1 / sqrt(pi), the
normalization that matches the shapelet basis. -/
noncomputable def NORM : ℝ := 1 / Real.sqrt Real.pi

/-- GaussianHelper::apply: adds, for every sample p, the value
exp(-(x'^2+y'^2)/2) * detFactor * NORM into the existing contents of
the output column. -/
noncomputable def gaussianApply (xt yt : ℕ → ℝ) (detFactor : ℝ) (output : ℕ → ℝ) : ℕ → ℝ :=
  fun p => output p + Real.exp (-(1 / 2) * (xt p ^ 2 + yt p ^ 2)) * detFactor * NORM

/-- The initial contents of one Hermite recurrence table before the
degree loop of ShapeletHelper fillHermite1d runs: degree 0 is set to
the basis normalization constant, degree 1 (written only when the
table has more than one column, that is when the order is at least 1)
is sqrt(2) times the coordinate times the degree-0 value. -/
noncomputable def hermiteInit (order : ℕ) (coord : ℝ) : ℕ → ℝ :=
  fun k =>
    if k = 0 then BASIS_NORMALIZATION
    else if k = 1 ∧ 1 ≤ order then intSqrt 2 * coord * BASIS_NORMALIZATION
    else 0

/-- One iteration of the degree loop of fillHermite1d: writes table
entry j from entries j-1 and j-2 by the three-term recurrence and
leaves every other entry unchanged. -/
noncomputable def fillStep (coord : ℝ) (j : ℕ) (tbl : ℕ → ℝ) : ℕ → ℝ :=
  fun k =>
    if k = j then rationalSqrt 2 j * coord * tbl (j - 1) - rationalSqrt (j - 1) j * tbl (j - 2)
    else tbl k

/-- The degree loop of fillHermite1d, iterated: hermiteLoop coord m tbl
performs the loop iterations j = 2, 3, ..., m+1 in ascending order
(the iteration with the largest degree is applied last). -/
noncomputable def hermiteLoop (coord : ℝ) : ℕ → (ℕ → ℝ) → ℕ → ℝ
  | 0, tbl => tbl
  | m + 1, tbl => fillStep coord (m + 2) (hermiteLoop coord m tbl)

/-- ShapeletHelper fillHermite1d: fills one axis's table of normalized
Hermite-function values at degrees 0..order for the given coordinate
by running the degree loop j = 2..order over the initialized table. -/
noncomputable def fillHermite1d (order : ℕ) (coord : ℝ) : ℕ → ℝ :=
  hermiteLoop coord (order - 1) (hermiteInit order coord)

/-- The _expWorkspace member of ShapeletHelper after apply refreshes
it: the Gaussian envelope times the determinant factor, per sample. -/
noncomputable def expWorkspace (xt yt : ℕ → ℝ) (detFactor : ℝ) (p : ℕ) : ℝ :=
  Real.exp (-(1 / 2) * (xt p ^ 2 + yt p ^ 2)) * detFactor

/-- The _xWorkspace member of ShapeletHelper after apply refreshes it:
for each sample p, the x-axis Hermite table filled from the
transformed x coordinate. -/
noncomputable def xWorkspace (order : ℕ) (xt : ℕ → ℝ) (p : ℕ) : ℕ → ℝ :=
  fillHermite1d order (xt p)

/-- The _yWorkspace member of ShapeletHelper after apply refreshes it:
for each sample p, the y-axis Hermite table filled from the
transformed y coordinate. -/
noncomputable def yWorkspace (order : ℕ) (yt : ℕ → ℝ) (p : ℕ) : ℕ → ℝ :=
  fillHermite1d order (yt p)

/-- ShapeletHelper::apply at order n: for every packed index with total
order at most n (that is, every column index below computeSize n),
accumulates exp-envelope times the two axis table values into that
output column; other columns are left as they were. -/
noncomputable def shapeletApply (n : ℕ) (xt yt : ℕ → ℝ) (detFactor : ℝ)
    (output : ℕ → ℕ → ℝ) : ℕ → ℕ → ℝ :=
  fun p c =>
    if c < computeSize n then
      output p c
        + expWorkspace xt yt detFactor p
          * xWorkspace n xt p (packedPair c).1
          * yWorkspace n yt p (packedPair c).2
    else output p c

/-- Dense matrix product with an explicit inner dimension, as performed
by the Eigen products in MatrixBuilder.cc. -/
noncomputable def matMulN (inner : ℕ) (A B : ℕ → ℕ → ℝ) : ℕ → ℕ → ℝ :=
  fun i j => ∑ t ∈ Finset.range inner, A i t * B t j

/-- Modelled from the spec: the GaussHermiteConvolution collaborator,
constructed from a basis order and a PSF shapelet function.  It exposes
a row order (at least the requested order) and a col order (the
requested order) and, given an ellipse, returns the dense conversion
matrix of shape (row basis size x col basis size) together with the
ellipse it has convolved with the PSF in place. -/
structure GaussHermiteConvolution where
  rowOrder : ℕ
  colOrder : ℕ
  evaluate : Ellipse → (ℕ → ℕ → ℝ) × Ellipse

/-- GaussianMatrixBuilder: the cached sample coordinates together with
the mutable EllipseHelper scratch. -/
structure GaussianBuilderState where
  x : ℕ → ℝ
  y : ℕ → ℝ
  scratch : EllState

/-- GaussianMatrixBuilder::apply: zeroes the output, reads the ellipse
into the scratch, and writes the single Gaussian column.  Returns the
output matrix together with the builder state after the call. -/
noncomputable def gaussianBuilderApply (st : GaussianBuilderState) (e : Ellipse) :
    (ℕ → ℕ → ℝ) × GaussianBuilderState :=
  let es := readEllipse st.x st.y e
  (fun p j => if j = 0 then gaussianApply es.xt es.yt es.detFactor (fun _ => 0) p else 0,
   { st with scratch := es })

/-- ConvolvedGaussianMatrixBuilder: samples, the cached PSF ellipse and
PSF coefficient, and the EllipseHelper scratch. -/
structure ConvolvedGaussianBuilderState where
  x : ℕ → ℝ
  y : ℕ → ℝ
  psfEllipse : Ellipse
  psfCoefficient : ℝ
  scratch : EllState

/-- ConvolvedGaussianMatrixBuilder::apply: zeroes the output, reads the
convolution of the evaluation ellipse with the cached PSF ellipse (the
shape composition convolve is supplied by the external geometry
collaborator, as is the FLUX_FACTOR constant of ShapeletFunction), and
scales the Gaussian column by psfCoefficient / FLUX_FACTOR. -/
noncomputable def convolvedGaussianBuilderApply (convolve : Ellipse → Ellipse → Ellipse)
    (fluxFactor : ℝ) (st : ConvolvedGaussianBuilderState) (e : Ellipse) :
    (ℕ → ℕ → ℝ) × ConvolvedGaussianBuilderState :=
  let es := readEllipse st.x st.y (convolve e st.psfEllipse)
  (fun p j =>
     (if j = 0 then gaussianApply es.xt es.yt es.detFactor (fun _ => 0) p else 0)
       * (st.psfCoefficient / fluxFactor),
   { st with scratch := es })

/-- ShapeletMatrixBuilder: samples, the requested order, and the
EllipseHelper scratch. -/
structure ShapeletBuilderState where
  x : ℕ → ℝ
  y : ℕ → ℝ
  order : ℕ
  scratch : EllState

/-- ShapeletMatrixBuilder::apply: zeroes the output, reads the ellipse,
and evaluates the shapelet basis at the cached order. -/
noncomputable def shapeletBuilderApply (st : ShapeletBuilderState) (e : Ellipse) :
    (ℕ → ℕ → ℝ) × ShapeletBuilderState :=
  let es := readEllipse st.x st.y e
  (shapeletApply st.order es.xt es.yt es.detFactor (fun _ _ => 0),
   { st with scratch := es })

/-- ConvolvedShapeletMatrixBuilder: samples, the convolution
collaborator built at construction from (order, psf), and the
EllipseHelper scratch. -/
structure ConvolvedShapeletBuilderState where
  x : ℕ → ℝ
  y : ℕ → ℝ
  convolution : GaussHermiteConvolution
  scratch : EllState

/-- ConvolvedShapeletMatrixBuilder::apply as the source writes it:
zeroes the convolution workspace, obtains the conversion matrix and the
convolved ellipse from the collaborator, reads the convolved ellipse,
evaluates the shapelet basis at the collaborator's COL order into the
workspace (the argument the source passes at the _shapeletHelper.apply
call), and sets the output to workspace times conversion matrix.  The
contraction runs over the row basis size, the row count of the matrix
the collaborator returns. -/
noncomputable def convolvedShapeletBuilderApply (st : ConvolvedShapeletBuilderState)
    (e : Ellipse) : (ℕ → ℕ → ℝ) × ConvolvedShapeletBuilderState :=
  let ev := st.convolution.evaluate e
  let es := readEllipse st.x st.y ev.2
  let ws := shapeletApply st.convolution.colOrder es.xt es.yt es.detFactor (fun _ _ => 0)
  (fun p j => matMulN (computeSize st.convolution.rowOrder) ws ev.1 p j,
   { st with scratch := es })

/-- Comparison definition following the spec's words for the convolved
shapelet builder: identical to convolvedShapeletBuilderApply except
that the shapelet basis is evaluated at the collaborator's ROW order,
as the specification states. -/
noncomputable def convolvedShapeletRowOrderApply (st : ConvolvedShapeletBuilderState)
    (e : Ellipse) : ℕ → ℕ → ℝ :=
  let ev := st.convolution.evaluate e
  let es := readEllipse st.x st.y ev.2
  let ws := shapeletApply st.convolution.rowOrder es.xt es.yt es.detFactor (fun _ _ => 0)
  fun p j => matMulN (computeSize st.convolution.rowOrder) ws ev.1 p j

/-- One component of a MultiShapeletBasis: a radius, an order and a
dense mixing matrix of shape (component basis size x full basis
width). -/
structure MultiBasisComponent where
  radius : ℝ
  order : ℕ
  matrix : ℕ → ℕ → ℝ

/-- MultiShapeletMatrixBuilder0: samples, the basis component list, and
the EllipseHelper scratch. -/
structure MultiShapeletBuilderState where
  x : ℕ → ℝ
  y : ℕ → ℝ
  components : List MultiBasisComponent
  scratch : EllState

/-- The component loop of MultiShapeletMatrixBuilder0::apply: for each
component, rescales the normalized coordinates from the previous
component's radius to this one's, evaluates the shapelet basis at the
component's order into a zeroed workspace view, and accumulates view
times mixing matrix into the output.  Returns the accumulated output
together with the EllipseHelper state after the loop. -/
noncomputable def multiGoS : List MultiBasisComponent → EllState → ℝ → (ℕ → ℕ → ℝ) →
    (ℕ → ℕ → ℝ) × EllState
  | [], es, _, out => (out, es)
  | c :: rest, es, lastRadius, out =>
      let es2 := ellScale es (c.radius / lastRadius)
      let view := shapeletApply c.order es2.xt es2.yt es2.detFactor (fun _ _ => 0)
      multiGoS rest es2 c.radius
        (fun p j => out p j + matMulN (computeSize c.order) view c.matrix p j)

/-- MultiShapeletMatrixBuilder0::apply: zeroes the output, reads the
base ellipse, and runs the component loop starting from radius 1. -/
noncomputable def multiBuilderApply (st : MultiShapeletBuilderState) (e : Ellipse) :
    (ℕ → ℕ → ℝ) × MultiShapeletBuilderState :=
  let r := multiGoS st.components (readEllipse st.x st.y e) 1 (fun _ _ => 0)
  (r.1, { st with scratch := r.2 })

/-- One element of the component list that the
ConvolvedMultiShapeletMatrixBuilder constructor builds: a convolution
collaborator made from (component order, PSF element), the component's
radius, and its mixing matrix. -/
structure ConvolvedComponent where
  convolution : GaussHermiteConvolution
  radius : ℝ
  matrix : ℕ → ℕ → ℝ

/-- getRowSize of a ConvolvedMultiShapeletMatrixBuilder component: the
basis size of its convolution's row order, the width of the basisView
sub-view taken during apply. -/
def componentRowSize (c : ConvolvedComponent) : ℕ := computeSize c.convolution.rowOrder

/-- ConvolvedMultiShapeletMatrixBuilder: samples, the component list,
and the EllipseHelper scratch. -/
structure ConvolvedMultiBuilderState where
  x : ℕ → ℝ
  y : ℕ → ℝ
  components : List ConvolvedComponent
  scratch : EllState

/-- The component loop of ConvolvedMultiShapeletMatrixBuilder::apply:
for each component, scales a copy of the ellipse by the component's
radius (scaleCore is supplied by the external geometry collaborator),
convolves it through the collaborator to obtain the conversion matrix
and the convolved scaled ellipse, reads that ellipse, evaluates the
shapelet basis at the collaborator's col order (the argument the
source passes) into a zeroed view, forms conversion matrix times
mixing matrix, and accumulates their product into the output. -/
noncomputable def convolvedMultiGo (x y : ℕ → ℝ) (scaleCore : ℝ → Ellipse → Ellipse)
    (e : Ellipse) : List ConvolvedComponent → (ℕ → ℕ → ℝ) × EllState →
    (ℕ → ℕ → ℝ) × EllState
  | [], acc => acc
  | c :: rest, acc =>
      let ev := c.convolution.evaluate (scaleCore c.radius e)
      let es := readEllipse x y ev.2
      let basisView := shapeletApply c.convolution.colOrder es.xt es.yt es.detFactor
        (fun _ _ => 0)
      let convView := matMulN (computeSize c.convolution.colOrder) ev.1 c.matrix
      convolvedMultiGo x y scaleCore e rest
        (fun p j => acc.1 p j + matMulN (computeSize c.convolution.rowOrder) basisView convView p j,
         es)

/-- ConvolvedMultiShapeletMatrixBuilder::apply: zeroes the output and
runs the component loop. -/
noncomputable def convolvedMultiBuilderApply (scaleCore : ℝ → Ellipse → Ellipse)
    (st : ConvolvedMultiBuilderState) (e : Ellipse) :
    (ℕ → ℕ → ℝ) × ConvolvedMultiBuilderState :=
  let r := convolvedMultiGo st.x st.y scaleCore e st.components (fun _ _ => 0, st.scratch)
  (r.1, { st with scratch := r.2 })

/-- The column count of the _convolutionWorkspace buffer that the
ConvolvedShapeletMatrixBuilder constructor allocates:
ndarray::allocate(getDataSize(), _convolution.getRowOrder()), so the
row order itself, not a basis size. -/
def convolvedShapeletWorkspaceCols (conv : GaussHermiteConvolution) : ℕ := conv.rowOrder

/-- The maxRowOrder accumulated by the
ConvolvedMultiShapeletMatrixBuilder constructor over its component
list, which is the column count it allocates for _basisWorkspace:
ndarray::allocate(getDataSize(), maxRowOrder). -/
def convolvedMultiBasisWorkspaceCols (cs : List ConvolvedComponent) : ℕ :=
  cs.foldl (fun m c => max m c.convolution.rowOrder) 0

/-- The ShapeletFunction value object as the factory consumes it: an
order, an ellipse, and a coefficient vector. -/
structure ShapeletFunction where
  order : ℕ
  ellipse : Ellipse
  coefficients : List ℝ

instance : Inhabited ShapeletFunction :=
  ⟨{ order := 0, ellipse := { gridTransform := ⟨1, 0, 0, 1, 0, 0⟩ }, coefficients := [] }⟩

/-- The MultiShapeletFunction value object: an ordered list of
ShapeletFunction elements. -/
structure MultiShapeletFunction where
  elements : List ShapeletFunction

/-- The MultiShapeletBasis value object as the factory consumes it: a
total output size and an ordered component list. -/
structure MultiShapeletBasis where
  size : ℕ
  components : List MultiBasisComponent

/-- The error kinds MatrixBuilder.cc raises: the LengthError of the
base constructor and the LogicError (message: Not implemented) of the
unimplemented factory overloads. -/
inductive BuilderError where
  | lengthMismatch : BuilderError
  | notImplemented : BuilderError
deriving DecidableEq

/-- The data the MatrixBuilder base class caches: the sample
coordinate pairs and the basis size. -/
structure MatrixBuilderBase where
  xy : List (ℝ × ℝ)
  basisSize : ℕ

/-- The closed set of builder variants a factory call can return, each
carrying the configuration its constructor caches. -/
inductive Builder where
  | gaussian (base : MatrixBuilderBase) : Builder
  | convolvedGaussian (base : MatrixBuilderBase) (psfEllipse : Ellipse)
      (psfCoefficient : ℝ) : Builder
  | shapelet (base : MatrixBuilderBase) (order : ℕ) : Builder
  | convolvedShapelet (base : MatrixBuilderBase) (psf : ShapeletFunction)
      (order : ℕ) : Builder
  | multiShapelet (base : MatrixBuilderBase) (basis : MultiShapeletBasis) : Builder
  | convolvedMultiShapelet (base : MatrixBuilderBase) (psf : MultiShapeletFunction)
      (basis : MultiShapeletBasis) : Builder

/-- The MatrixBuilder base constructor: raises LengthError when the x
and y sample arrays have different lengths, otherwise caches the
sample pairs and the basis size.  On the error path nothing further is
computed. -/
def MatrixBuilder.construct (x y : List ℝ) (basisSize : ℕ) :
    Except BuilderError MatrixBuilderBase :=
  if x.length = y.length then .ok { xy := x.zip y, basisSize := basisSize }
  else .error .lengthMismatch

/-- The GaussianMatrixBuilder constructor: basis size 1. -/
def GaussianMatrixBuilder.construct (x y : List ℝ) : Except BuilderError Builder :=
  (MatrixBuilder.construct x y 1).map Builder.gaussian

/-- The ConvolvedGaussianMatrixBuilder constructor: basis size 1, with
the PSF ellipse and coefficient cached. -/
def ConvolvedGaussianMatrixBuilder.construct (x y : List ℝ) (psfEllipse : Ellipse)
    (psfCoefficient : ℝ) : Except BuilderError Builder :=
  (MatrixBuilder.construct x y 1).map
    (fun b => Builder.convolvedGaussian b psfEllipse psfCoefficient)

/-- The ShapeletMatrixBuilder constructor: basis size computeSize
order. -/
def ShapeletMatrixBuilder.construct (x y : List ℝ) (order : ℕ) :
    Except BuilderError Builder :=
  (MatrixBuilder.construct x y (computeSize order)).map (fun b => Builder.shapelet b order)

/-- The ConvolvedShapeletMatrixBuilder constructor: basis size
computeSize order, with the PSF cached. -/
def ConvolvedShapeletMatrixBuilder.construct (x y : List ℝ) (psf : ShapeletFunction)
    (order : ℕ) : Except BuilderError Builder :=
  (MatrixBuilder.construct x y (computeSize order)).map
    (fun b => Builder.convolvedShapelet b psf order)

/-- The MultiShapeletMatrixBuilder0 constructor: basis size
basis.getSize(). -/
def MultiShapeletMatrixBuilder0.construct (x y : List ℝ) (basis : MultiShapeletBasis) :
    Except BuilderError Builder :=
  (MatrixBuilder.construct x y basis.size).map (fun b => Builder.multiShapelet b basis)

/-- The factory overload taking an order: order 0 gives the Gaussian
builder, any other order the shapelet builder. -/
def makeMatrixBuilderOrder (x y : List ℝ) (order : ℕ) : Except BuilderError Builder :=
  if order = 0 then GaussianMatrixBuilder.construct x y
  else ShapeletMatrixBuilder.construct x y order

/-- The factory overload taking a single ShapeletFunction PSF and an
order: order 0 with an order-0 PSF gives the convolved Gaussian
builder (built from the PSF's ellipse and first coefficient), any
other combination the convolved shapelet builder. -/
def makeMatrixBuilderPsf (x y : List ℝ) (psf : ShapeletFunction) (order : ℕ) :
    Except BuilderError Builder :=
  if order = 0 ∧ psf.order = 0 then
    ConvolvedGaussianMatrixBuilder.construct x y psf.ellipse (psf.coefficients.headD 0)
  else ConvolvedShapeletMatrixBuilder.construct x y psf order

/-- The factory overload taking a MultiShapeletFunction PSF and an
order: with exactly one PSF element it delegates to the single-PSF
overload on the front element, otherwise it raises LogicError (Not
implemented). -/
def makeMatrixBuilderMultiPsf (x y : List ℝ) (psf : MultiShapeletFunction) (order : ℕ) :
    Except BuilderError Builder :=
  if psf.elements.length = 1 then
    makeMatrixBuilderPsf x y (psf.elements.headD default) order
  else .error .notImplemented

/-- The factory overload taking a MultiShapeletBasis and no PSF:
returns the multi-shapelet builder. -/
def makeMatrixBuilderBasis (x y : List ℝ) (basis : MultiShapeletBasis) :
    Except BuilderError Builder :=
  MultiShapeletMatrixBuilder0.construct x y basis

/-- The factory overload taking both a MultiShapeletFunction PSF and a
MultiShapeletBasis: the source body is a single unconditional throw of
LogicError (Not implemented). -/
def makeMatrixBuilderMultiPsfBasis (_x _y : List ℝ) (_psf : MultiShapeletFunction)
    (_basis : MultiShapeletBasis) : Except BuilderError Builder :=
  .error .notImplemented

/-! Concrete objects used to instantiate the theorems below. -/

/-- The identity grid transform. -/
def identityTransform : AffineTransform := ⟨1, 0, 0, 1, 0, 0⟩

/-- An ellipse whose grid transform is the identity. -/
def unitEllipse : Ellipse := ⟨identityTransform⟩

/-- A blank EllipseHelper state, used as the scratch a builder starts
with. -/
def zeroEllState : EllState := ⟨fun _ => 0, fun _ => 0, 1⟩

/-- A sample PSF element of order 0. -/
def psfElemA : ShapeletFunction := ⟨0, unitEllipse, [1]⟩

/-- A PSF with two elements. -/
def twoElementPsf : MultiShapeletFunction := ⟨[psfElemA, psfElemA]⟩

/-- A PSF with exactly one element. -/
def oneElementPsf : MultiShapeletFunction := ⟨[psfElemA]⟩

/-- A basis component of radius 1 and order 0. -/
def mbc1 : MultiBasisComponent := ⟨1, 0, fun _ _ => 0⟩

/-- A basis component of radius 2 and order 0. -/
def mbc2 : MultiBasisComponent := ⟨2, 0, fun _ _ => 0⟩

/-- A small multi-shapelet basis object. -/
def demoBasis : MultiShapeletBasis := ⟨1, [mbc1]⟩

/-- A convolution collaborator with row order 2 and col order 1 (the
orders GaussHermiteConvolution produces for requested order 1 and a
PSF of order 1) whose conversion matrix has a single nonzero entry in
row 3, so that the output exposes workspace column 3. -/
def conv21pick : GaussHermiteConvolution :=
  { rowOrder := 2, colOrder := 1
    evaluate := fun e => (fun i j => if i = 3 ∧ j = 0 then 1 else 0, e) }

/-- A convolution collaborator with row order 2 and col order 1 and a
zero conversion matrix. -/
def conv21zero : GaussHermiteConvolution :=
  { rowOrder := 2, colOrder := 1, evaluate := fun e => (fun _ _ => 0, e) }

/-- A convolved-multi-shapelet component built on conv21zero. -/
def comp21 : ConvolvedComponent := ⟨conv21zero, 1, fun _ _ => 0⟩

/-- A convolved shapelet builder over samples that sit at the origin,
probing the convolution collaborator conv21pick. -/
def convShapeletProbe : ConvolvedShapeletBuilderState :=
  { x := fun _ => 0, y := fun _ => 0, convolution := conv21pick, scratch := zeroEllState }

/-! Helper lemmas about the Hermite degree loop. -/

/-- A loop iteration with degree above k leaves entry k unchanged. -/
lemma hermiteLoop_le (coord : ℝ) (tbl : ℕ → ℝ) (m k : ℕ) (hk : k ≤ m + 1) :
    hermiteLoop coord (m + 1) tbl k = hermiteLoop coord m tbl k := by
  simp only [hermiteLoop, fillStep]
  rw [if_neg (by omega)]

/-- Entry k of the table is final once the loop has passed degree k:
running more iterations does not change it. -/
lemma hermiteLoop_stable (coord : ℝ) (tbl : ℕ → ℝ) (k m : ℕ) :
    ∀ n, m ≤ n → k ≤ m + 1 → hermiteLoop coord n tbl k = hermiteLoop coord m tbl k := by
  intro n
  induction n with
  | zero =>
      intro hmn _
      have hm : m = 0 := Nat.le_zero.mp hmn
      rw [hm]
  | succ n ih =>
      intro hmn hk
      rcases Nat.lt_or_ge m (n + 1) with h | h
      · rw [hermiteLoop_le coord tbl n k (by omega)]
        exact ih (by omega) hk
      · have hm : m = n + 1 := by omega
        rw [hm]

/-- The degree-0 entry of a filled Hermite table is the basis
normalization constant. -/
lemma fillHermite1d_zero (order : ℕ) (coord : ℝ) :
    fillHermite1d order coord 0 = BASIS_NORMALIZATION := by
  unfold fillHermite1d
  rw [hermiteLoop_stable coord _ 0 0 (order - 1) (Nat.zero_le _) (by omega)]
  simp [hermiteLoop, hermiteInit]

/-- The degree-1 entry of a filled Hermite table (present when the
order is at least 1) is sqrt(2) times the coordinate times the
normalization constant. -/
lemma fillHermite1d_one (order : ℕ) (coord : ℝ) (h : 1 ≤ order) :
    fillHermite1d order coord 1 = intSqrt 2 * coord * BASIS_NORMALIZATION := by
  unfold fillHermite1d
  rw [hermiteLoop_stable coord _ 1 0 (order - 1) (Nat.zero_le _) (by omega)]
  simp [hermiteLoop, hermiteInit, h]

/-- Entry j (for 2 <= j <= order) of a filled Hermite table satisfies
the three-term recurrence in terms of the final entries j-1 and
j-2. -/
lemma fillHermite1d_rec (order j : ℕ) (coord : ℝ) (h2 : 2 ≤ j) (hj : j ≤ order) :
    fillHermite1d order coord j
      = rationalSqrt 2 j * coord * fillHermite1d order coord (j - 1)
        - rationalSqrt (j - 1) j * fillHermite1d order coord (j - 2) := by
  obtain ⟨i, rfl⟩ : ∃ i, j = i + 2 := ⟨j - 2, by omega⟩
  unfold fillHermite1d
  rw [show i + 2 - 1 = i + 1 by omega, show i + 2 - 2 = i by omega]
  rw [hermiteLoop_stable coord _ (i + 2) (i + 1) (order - 1) (by omega) (by omega)]
  rw [hermiteLoop_stable coord _ (i + 1) i (order - 1) (by omega) (by omega)]
  rw [hermiteLoop_stable coord _ i i (order - 1) (by omega) (by omega)]
  simp only [hermiteLoop, fillStep, if_true]
  rw [show i + 2 - 1 = i + 1 by omega, show i + 2 - 2 = i by omega]

/-- The three claim-level facts about one filled Hermite table, with
the square roots written as the spec writes them. -/
lemma fillHermite1d_claim (n : ℕ) (c : ℝ) :
    fillHermite1d n c 0 = BASIS_NORMALIZATION
      ∧ (1 ≤ n → fillHermite1d n c 1 = Real.sqrt 2 * c * fillHermite1d n c 0)
      ∧ ∀ j, 2 ≤ j → j ≤ n →
          fillHermite1d n c j
            = Real.sqrt (2 / (j : ℝ)) * c * fillHermite1d n c (j - 1)
              - Real.sqrt (((j : ℝ) - 1) / (j : ℝ)) * fillHermite1d n c (j - 2) := by
  refine ⟨fillHermite1d_zero n c, ?_, ?_⟩
  · intro h
    rw [fillHermite1d_one n c h, fillHermite1d_zero n c]
    simp [intSqrt]
  · intro j h2 hj
    rw [fillHermite1d_rec n j c h2 hj]
    unfold rationalSqrt
    have h1 : ((j - 1 : ℕ) : ℝ) = (j : ℝ) - 1 := by
      push_cast [Nat.cast_sub (by omega : 1 ≤ j)]
      ring
    rw [h1]
    norm_num

/-- Positivity of the modelled normalization constant. -/
lemma BASIS_NORMALIZATION_pos : 0 < BASIS_NORMALIZATION := by
  unfold BASIS_NORMALIZATION
  have h := Real.pi_pos
  positivity

/-- Positivity of rationalSqrt on positive arguments. -/
lemma rationalSqrt_pos (n d : ℕ) (hn : 0 < n) (hd : 0 < d) : 0 < rationalSqrt n d := by
  unfold rationalSqrt
  have hn' : (0 : ℝ) < (n : ℝ) := by exact_mod_cast hn
  have hd' : (0 : ℝ) < (d : ℝ) := by exact_mod_cast hd
  positivity

/-- Positivity of intSqrt on positive arguments. -/
lemma intSqrt_pos (n : ℕ) (hn : 0 < n) : 0 < intSqrt n := by
  unfold intSqrt
  have hn' : (0 : ℝ) < (n : ℝ) := by exact_mod_cast hn
  positivity

/-- The base constructor fails with the length error exactly on
mismatched sample arrays; builder constructors map over it. -/
lemma map_construct_err (x y : List ℝ) (m : ℕ) (f : MatrixBuilderBase → Builder)
    (h : x.length ≠ y.length) :
    (MatrixBuilder.construct x y m).map f = .error .lengthMismatch := by
  unfold MatrixBuilder.construct
  rw [if_neg h]
  rfl

/-- On matched sample arrays a builder constructor that maps over the
base constructor succeeds. -/
lemma map_construct_ok (x y : List ℝ) (m : ℕ) (f : MatrixBuilderBase → Builder)
    (h : x.length = y.length) :
    ∃ b, (MatrixBuilder.construct x y m).map f = .ok b := by
  refine ⟨f { xy := x.zip y, basisSize := m }, ?_⟩
  unfold MatrixBuilder.construct
  rw [if_pos h]
  rfl

/-! The claims. -/

/-- C1, counterexample: the factory overload taking a full
multi-shapelet basis together with a (multi-element) PSF does NOT
return the convolved multi-shapelet builder; at this concrete basis
plus PSF request it raises LogicError (Not implemented). -/
theorem c1_basis_psf_counterexample :
    makeMatrixBuilderMultiPsfBasis [0] [0] twoElementPsf demoBasis
      = .error .notImplemented := rfl

/-- C1, amended: makeMatrixBuilder applied to a full multi-shapelet
basis together with a PSF raises LogicError (Not implemented) for
every input; the overload never constructs a builder, so the
ConvolvedMultiShapeletMatrixBuilder variant is unreachable through
the factory. -/
theorem c1_basis_psf_always_not_implemented :
    ∀ (x y : List ℝ) (psf : MultiShapeletFunction) (basis : MultiShapeletBasis),
      makeMatrixBuilderMultiPsfBasis x y psf basis = .error .notImplemented := by
  intro x y psf basis
  rfl

/-- C3: for every coordinate sequence and maximum order n, the
shapelet evaluator's x-axis and y-axis tables each hold, at every
sample, normalized Hermite-function values at degrees 0..n satisfying:
degree 0 is the constant Gaussian-basis normalization value, degree 1
is sqrt(2) times the coordinate times the degree-0 value, and degree
j >= 2 is sqrt(2/j) times the coordinate times the degree j-1 value
minus sqrt((j-1)/j) times the degree j-2 value. -/
theorem c3_hermite_recurrence :
    ∀ (n : ℕ) (xt yt : ℕ → ℝ) (p : ℕ),
      (xWorkspace n xt p 0 = BASIS_NORMALIZATION
        ∧ (1 ≤ n → xWorkspace n xt p 1 = Real.sqrt 2 * xt p * xWorkspace n xt p 0)
        ∧ ∀ j, 2 ≤ j → j ≤ n →
            xWorkspace n xt p j
              = Real.sqrt (2 / (j : ℝ)) * xt p * xWorkspace n xt p (j - 1)
                - Real.sqrt (((j : ℝ) - 1) / (j : ℝ)) * xWorkspace n xt p (j - 2))
      ∧ (yWorkspace n yt p 0 = BASIS_NORMALIZATION
        ∧ (1 ≤ n → yWorkspace n yt p 1 = Real.sqrt 2 * yt p * yWorkspace n yt p 0)
        ∧ ∀ j, 2 ≤ j → j ≤ n →
            yWorkspace n yt p j
              = Real.sqrt (2 / (j : ℝ)) * yt p * yWorkspace n yt p (j - 1)
                - Real.sqrt (((j : ℝ) - 1) / (j : ℝ)) * yWorkspace n yt p (j - 2)) := by
  intro n xt yt p
  exact ⟨fillHermite1d_claim n (xt p), fillHermite1d_claim n (yt p)⟩

/-- Witness for C3 at order 2, coordinate 1 and degree 2. -/
theorem c3_hermite_recurrence_witness :
    (2 ≤ 2 ∧ 2 ≤ 2)
      ∧ xWorkspace 2 (fun _ => (1 : ℝ)) 0 2
          = Real.sqrt (2 / ((2 : ℕ) : ℝ)) * (1 : ℝ) * xWorkspace 2 (fun _ => (1 : ℝ)) 0 (2 - 1)
            - Real.sqrt ((((2 : ℕ) : ℝ) - 1) / ((2 : ℕ) : ℝ))
              * xWorkspace 2 (fun _ => (1 : ℝ)) 0 (2 - 2) :=
  ⟨⟨le_refl 2, le_refl 2⟩,
   (c3_hermite_recurrence 2 (fun _ => 1) (fun _ => 1) 0).1.2.2 2 (le_refl 2) (le_refl 2)⟩

/-- C4: the Gaussian evaluator adds
exp(-(x'^2+y'^2)/2) * detFactor * (1/sqrt(pi)) into the existing
contents of the output column, so the prior contents survive as a
summand. -/
theorem c4_gaussian_accumulates :
    ∀ (xt yt : ℕ → ℝ) (detFactor : ℝ) (output : ℕ → ℝ) (p : ℕ),
      gaussianApply xt yt detFactor output p
        = output p
          + Real.exp (-(1 / 2) * (xt p ^ 2 + yt p ^ 2)) * detFactor
            * (1 / Real.sqrt Real.pi) := by
  intro xt yt d o p
  simp [gaussianApply, NORM]

/-- C6: the MatrixBuilder base constructor, and every factory overload
that constructs a builder, raises the length-mismatch error exactly
when the x and y sample arrays have different lengths; on equal
lengths construction succeeds. -/
theorem c6_length_mismatch_at_construction :
    ∀ (x y : List ℝ) (n order : ℕ) (psf : ShapeletFunction) (basis : MultiShapeletBasis),
      (x.length ≠ y.length →
        MatrixBuilder.construct x y n = .error .lengthMismatch
          ∧ makeMatrixBuilderOrder x y order = .error .lengthMismatch
          ∧ makeMatrixBuilderPsf x y psf order = .error .lengthMismatch
          ∧ makeMatrixBuilderBasis x y basis = .error .lengthMismatch)
      ∧ (x.length = y.length →
        (∃ b, MatrixBuilder.construct x y n = .ok b)
          ∧ (∃ b, makeMatrixBuilderOrder x y order = .ok b)
          ∧ (∃ b, makeMatrixBuilderPsf x y psf order = .ok b)
          ∧ (∃ b, makeMatrixBuilderBasis x y basis = .ok b)) := by
  intro x y n order psf basis
  constructor
  · intro h
    refine ⟨?_, ?_, ?_, ?_⟩
    · unfold MatrixBuilder.construct
      rw [if_neg h]
    · unfold makeMatrixBuilderOrder GaussianMatrixBuilder.construct
        ShapeletMatrixBuilder.construct
      split_ifs <;> exact map_construct_err x y _ _ h
    · unfold makeMatrixBuilderPsf ConvolvedGaussianMatrixBuilder.construct
        ConvolvedShapeletMatrixBuilder.construct
      split_ifs <;> exact map_construct_err x y _ _ h
    · unfold makeMatrixBuilderBasis MultiShapeletMatrixBuilder0.construct
      exact map_construct_err x y _ _ h
  · intro h
    refine ⟨?_, ?_, ?_, ?_⟩
    · refine ⟨{ xy := x.zip y, basisSize := n }, ?_⟩
      unfold MatrixBuilder.construct
      rw [if_pos h]
    · unfold makeMatrixBuilderOrder GaussianMatrixBuilder.construct
        ShapeletMatrixBuilder.construct
      split_ifs <;> exact map_construct_ok x y _ _ h
    · unfold makeMatrixBuilderPsf ConvolvedGaussianMatrixBuilder.construct
        ConvolvedShapeletMatrixBuilder.construct
      split_ifs <;> exact map_construct_ok x y _ _ h
    · unfold makeMatrixBuilderBasis MultiShapeletMatrixBuilder0.construct
      exact map_construct_ok x y _ _ h

/-- Witness for C6: length 5 against length 4 fails with the length
error, equal lengths succeed. -/
theorem c6_length_mismatch_witness :
    MatrixBuilder.construct [0, 0, 0, 0, 0] [0, 0, 0, 0] 1 = .error .lengthMismatch
      ∧ ∃ b, MatrixBuilder.construct [0, 0, 0, 0] [0, 0, 0, 0] 1 = .ok b :=
  ⟨((c6_length_mismatch_at_construction [0, 0, 0, 0, 0] [0, 0, 0, 0] 1 0 psfElemA
      demoBasis).1 (by simp)).1,
   ((c6_length_mismatch_at_construction [0, 0, 0, 0] [0, 0, 0, 0] 1 0 psfElemA
      demoBasis).2 rfl).1⟩

/-- C7: the factory overload taking a MultiShapeletFunction PSF and an
order raises a logic error for every PSF with more than one element
and never produces a builder in that case. -/
theorem c7_multi_psf_order_rejected :
    ∀ (x y : List ℝ) (psf : MultiShapeletFunction) (order : ℕ),
      1 < psf.elements.length →
      makeMatrixBuilderMultiPsf x y psf order = .error .notImplemented := by
  intro x y psf order h
  unfold makeMatrixBuilderMultiPsf
  rw [if_neg (by omega)]

/-- Witness for C7 at a two-element PSF. -/
theorem c7_multi_psf_order_rejected_witness :
    1 < twoElementPsf.elements.length
      ∧ makeMatrixBuilderMultiPsf [0] [0] twoElementPsf 1 = .error .notImplemented :=
  ⟨by simp [twoElementPsf], c7_multi_psf_order_rejected [0] [0] twoElementPsf 1
    (by simp [twoElementPsf])⟩

/-- C10: the multi-function-PSF factory overload, applied to a PSF
holding exactly one element, returns exactly the builder the
single-ShapeletFunction-PSF overload returns for that element with the
same samples and order, so the two behave identically. -/
theorem c10_single_element_delegates :
    ∀ (x y : List ℝ) (psf : MultiShapeletFunction) (f : ShapeletFunction) (order : ℕ),
      psf.elements = [f] →
      makeMatrixBuilderMultiPsf x y psf order = makeMatrixBuilderPsf x y f order := by
  intro x y psf f order h
  unfold makeMatrixBuilderMultiPsf
  rw [h]
  simp

/-- Witness for C10 at a one-element PSF. -/
theorem c10_single_element_delegates_witness :
    oneElementPsf.elements = [psfElemA]
      ∧ makeMatrixBuilderMultiPsf [0] [0] oneElementPsf 1
          = makeMatrixBuilderPsf [0] [0] psfElemA 1 :=
  ⟨rfl, c10_single_element_delegates [0] [0] oneElementPsf psfElemA 1 rfl⟩

/-- The output of the convolved multi-shapelet component loop does not
depend on the scratch component of the accumulator: every component
reads the ellipse afresh before using the coordinate workspace. -/
lemma convolvedMultiGo_fst (x y : ℕ → ℝ) (scaleCore : ℝ → Ellipse → Ellipse) (e : Ellipse) :
    ∀ (cs : List ConvolvedComponent) (out : ℕ → ℕ → ℝ) (es es' : EllState),
      (convolvedMultiGo x y scaleCore e cs (out, es)).1
        = (convolvedMultiGo x y scaleCore e cs (out, es')).1 := by
  intro cs out es es'
  cases cs with
  | nil => rfl
  | cons c rest => rfl

/-- C8: for each builder variant, apply leaves every persistent field
(samples, order, PSF configuration, convolution configuration, basis
components) unchanged, and a second apply call with the same ellipse
on the state the first call returned produces the same output
matrix. -/
theorem c8_apply_leaves_config_unchanged :
    (∀ (st : GaussianBuilderState) (e : Ellipse),
        (gaussianBuilderApply st e).2.x = st.x
          ∧ (gaussianBuilderApply st e).2.y = st.y
          ∧ (gaussianBuilderApply ((gaussianBuilderApply st e).2) e).1
              = (gaussianBuilderApply st e).1)
    ∧ (∀ (convolve : Ellipse → Ellipse → Ellipse) (fluxFactor : ℝ)
          (st : ConvolvedGaussianBuilderState) (e : Ellipse),
        (convolvedGaussianBuilderApply convolve fluxFactor st e).2.x = st.x
          ∧ (convolvedGaussianBuilderApply convolve fluxFactor st e).2.y = st.y
          ∧ (convolvedGaussianBuilderApply convolve fluxFactor st e).2.psfEllipse
              = st.psfEllipse
          ∧ (convolvedGaussianBuilderApply convolve fluxFactor st e).2.psfCoefficient
              = st.psfCoefficient
          ∧ (convolvedGaussianBuilderApply convolve fluxFactor
                ((convolvedGaussianBuilderApply convolve fluxFactor st e).2) e).1
              = (convolvedGaussianBuilderApply convolve fluxFactor st e).1)
    ∧ (∀ (st : ShapeletBuilderState) (e : Ellipse),
        (shapeletBuilderApply st e).2.x = st.x
          ∧ (shapeletBuilderApply st e).2.y = st.y
          ∧ (shapeletBuilderApply st e).2.order = st.order
          ∧ (shapeletBuilderApply ((shapeletBuilderApply st e).2) e).1
              = (shapeletBuilderApply st e).1)
    ∧ (∀ (st : ConvolvedShapeletBuilderState) (e : Ellipse),
        (convolvedShapeletBuilderApply st e).2.x = st.x
          ∧ (convolvedShapeletBuilderApply st e).2.y = st.y
          ∧ (convolvedShapeletBuilderApply st e).2.convolution = st.convolution
          ∧ (convolvedShapeletBuilderApply ((convolvedShapeletBuilderApply st e).2) e).1
              = (convolvedShapeletBuilderApply st e).1)
    ∧ (∀ (st : MultiShapeletBuilderState) (e : Ellipse),
        (multiBuilderApply st e).2.x = st.x
          ∧ (multiBuilderApply st e).2.y = st.y
          ∧ (multiBuilderApply st e).2.components = st.components
          ∧ (multiBuilderApply ((multiBuilderApply st e).2) e).1
              = (multiBuilderApply st e).1)
    ∧ (∀ (scaleCore : ℝ → Ellipse → Ellipse) (st : ConvolvedMultiBuilderState) (e : Ellipse),
        (convolvedMultiBuilderApply scaleCore st e).2.x = st.x
          ∧ (convolvedMultiBuilderApply scaleCore st e).2.y = st.y
          ∧ (convolvedMultiBuilderApply scaleCore st e).2.components = st.components
          ∧ (convolvedMultiBuilderApply scaleCore
                ((convolvedMultiBuilderApply scaleCore st e).2) e).1
              = (convolvedMultiBuilderApply scaleCore st e).1) := by
  refine ⟨?_, ?_, ?_, ?_, ?_, ?_⟩
  · intro st e
    exact ⟨rfl, rfl, rfl⟩
  · intro convolve fluxFactor st e
    exact ⟨rfl, rfl, rfl, rfl, rfl⟩
  · intro st e
    exact ⟨rfl, rfl, rfl, rfl⟩
  · intro st e
    exact ⟨rfl, rfl, rfl, rfl⟩
  · intro st e
    exact ⟨rfl, rfl, rfl, rfl⟩
  · intro scaleCore st e
    refine ⟨rfl, rfl, rfl, ?_⟩
    exact convolvedMultiGo_fst st.x st.y scaleCore e st.components (fun _ _ => 0) _ _

/-- Two successive relative rescales of the normalized coordinates,
first to radius r1 from radius 1 and then to radius r2 from radius r1,
agree with a single rescale to radius r2, provided r1 is nonzero (the
spec requires component radii to be positive reals). -/
lemma ellScale_relative (es : EllState) (r1 r2 : ℝ) (h : r1 ≠ 0) :
    ellScale (ellScale es (r1 / 1)) (r2 / r1) = ellScale es (r2 / 1) := by
  unfold ellScale
  refine EllState.ext ?_ ?_ ?_
  · funext q
    dsimp only
    rw [div_one, div_one, div_div, mul_comm, div_mul_cancel₀ _ h]
  · funext q
    dsimp only
    rw [div_one, div_one, div_div, mul_comm, div_mul_cancel₀ _ h]
  · rfl

/-- C5: applying the multi-shapelet builder built from a two-component
basis equals the sum of applying the two single-component builders to
the same ellipse, each component's result mapped through its own
mixing matrix; the coordinate rescale of the second component is
performed relative to the first component's radius, which requires
that radius to be nonzero (the spec's positive-radius invariant). -/
theorem c5_multi_two_component_sum :
    ∀ (x y : ℕ → ℝ) (s : EllState) (e : Ellipse) (c1 c2 : MultiBasisComponent),
      c1.radius ≠ 0 → ∀ p j,
      (multiBuilderApply ⟨x, y, [c1, c2], s⟩ e).1 p j
        = (multiBuilderApply ⟨x, y, [c1], s⟩ e).1 p j
          + (multiBuilderApply ⟨x, y, [c2], s⟩ e).1 p j := by
  intro x y s e c1 c2 h p j
  have hs := ellScale_relative (readEllipse x y e) c1.radius c2.radius h
  simp only [multiBuilderApply, multiGoS]
  rw [hs]
  ring

/-- Witness for C5 at two concrete components of radii 1 and 2. -/
theorem c5_multi_two_component_sum_witness :
    mbc1.radius ≠ 0
      ∧ (multiBuilderApply ⟨fun _ => 0, fun _ => 0, [mbc1, mbc2], zeroEllState⟩
            unitEllipse).1 0 0
          = (multiBuilderApply ⟨fun _ => 0, fun _ => 0, [mbc1], zeroEllState⟩
                unitEllipse).1 0 0
            + (multiBuilderApply ⟨fun _ => 0, fun _ => 0, [mbc2], zeroEllState⟩
                  unitEllipse).1 0 0 :=
  ⟨by norm_num [mbc1],
   c5_multi_two_component_sum (fun _ => 0) (fun _ => 0) zeroEllState unitEllipse mbc1 mbc2
     (by norm_num [mbc1]) 0 0⟩

/-- packedPair at index 2 is the (0,1) pair. -/
lemma packedPair_two : packedPair 2 = (0, 1) := rfl

/-- packedPair at index 3 is the (2,0) pair, the first order-2
column. -/
lemma packedPair_three : packedPair 3 = (2, 0) := rfl

/-- Reading the identity-transform ellipse over samples at the origin
yields zero coordinates and determinant factor 1. -/
lemma readEllipse_origin :
    readEllipse (fun _ => (0 : ℝ)) (fun _ => (0 : ℝ)) unitEllipse = zeroEllState := by
  unfold readEllipse unitEllipse identityTransform zeroEllState
  refine EllState.ext ?_ ?_ ?_
  · funext q
    norm_num
  · funext q
    norm_num
  · norm_num

/-- A sum of the form 0 + a*b*c with positive factors is nonzero. -/
lemma zero_add_mul3_ne (a b c : ℝ) (ha : 0 < a) (hb : 0 < b) (hc : 0 < c) :
    (0 : ℝ) + a * b * c ≠ 0 := by
  have hpos := mul_pos (mul_pos ha hb) hc
  intro hcontr
  rw [zero_add] at hcontr
  exact (ne_of_gt hpos) hcontr

/-- The degree-2 entry of the Hermite table filled at coordinate 0 and
order 2. -/
lemma fillHermite1d_two_zero :
    fillHermite1d 2 (0 : ℝ) 2 = -(rationalSqrt 1 2 * BASIS_NORMALIZATION) := by
  rw [fillHermite1d_rec 2 2 0 (by norm_num) (by norm_num)]
  rw [show (2 : ℕ) - 1 = 1 from rfl, show (2 : ℕ) - 2 = 0 from rfl, fillHermite1d_zero]
  ring

/-- C2, code evaluation at the failing input: with a convolution
collaborator of row order 2 and col order 1 (requested order 1, PSF
order 1) whose conversion matrix selects workspace column 3 (the first
order-2 basis column), the apply the source writes (basis evaluated at
the COL order) produces 0 because that workspace column is never
filled, while the spec's version (basis evaluated at the ROW order)
produces a nonzero value there. -/
theorem c2_convolved_shapelet_order_divergence :
    (convolvedShapeletBuilderApply convShapeletProbe unitEllipse).1 0 0 = 0
      ∧ convolvedShapeletRowOrderApply convShapeletProbe unitEllipse 0 0 ≠ 0 := by
  constructor
  · simp only [convolvedShapeletBuilderApply, convShapeletProbe, conv21pick,
      readEllipse_origin, zeroEllState, matMulN]
    norm_num [Finset.sum_range_succ, shapeletApply, computeSize]
  · have hstep : convolvedShapeletRowOrderApply convShapeletProbe unitEllipse 0 0
        = shapeletApply 2 (fun _ => (0 : ℝ)) (fun _ => (0 : ℝ)) 1 (fun _ _ => 0) 0 3 := by
      simp only [convolvedShapeletRowOrderApply, convShapeletProbe, conv21pick,
        readEllipse_origin, zeroEllState, matMulN]
      norm_num [Finset.sum_range_succ, computeSize]
    rw [hstep]
    have hval : shapeletApply 2 (fun _ => (0 : ℝ)) (fun _ => (0 : ℝ)) 1 (fun _ _ => 0) 0 3
        = -(Real.exp 0 * 1 * (rationalSqrt 1 2 * BASIS_NORMALIZATION) * BASIS_NORMALIZATION) := by
      simp only [shapeletApply, packedPair_three, xWorkspace, yWorkspace, expWorkspace]
      rw [if_pos (by decide : 3 < computeSize 2)]
      rw [fillHermite1d_two_zero, fillHermite1d_zero]
      norm_num
    rw [hval]
    have hpos : 0 < Real.exp 0 * 1 * (rationalSqrt 1 2 * BASIS_NORMALIZATION)
        * BASIS_NORMALIZATION :=
      mul_pos (mul_pos (mul_pos (Real.exp_pos 0) one_pos)
        (mul_pos (rationalSqrt_pos 1 2 (by norm_num) (by norm_num)) BASIS_NORMALIZATION_pos))
        BASIS_NORMALIZATION_pos
    exact neg_ne_zero.mpr (ne_of_gt hpos)

/-- C9, code evaluation at the failing input: the
ConvolvedShapeletMatrixBuilder constructor allocates only
getRowOrder() = 2 workspace columns (for requested order 1 and a PSF
of order 1), but apply's shapelet evaluation writes a nonzero value
into column index 2, outside the allocated columns 0 and 1; and the
ConvolvedMultiShapeletMatrixBuilder constructor allocates maxRowOrder
= 2 columns for its basis workspace while apply takes a sub-view of
width getRowSize() = 6 of it. -/
theorem c9_workspace_allocation_overflow :
    convolvedShapeletWorkspaceCols conv21zero = 2
      ∧ shapeletApply conv21zero.colOrder (fun _ => 0) (fun _ => 1) 1 (fun _ _ => 0) 0 2 ≠ 0
      ∧ convolvedMultiBasisWorkspaceCols [comp21] = 2
      ∧ componentRowSize comp21 = 6 := by
  refine ⟨rfl, ?_, rfl, rfl⟩
  show shapeletApply 1 (fun _ => 0) (fun _ => 1) 1 (fun _ _ => 0) 0 2 ≠ 0
  simp only [shapeletApply, packedPair_two, xWorkspace, yWorkspace, expWorkspace]
  rw [if_pos (by decide : 2 < computeSize 1)]
  rw [fillHermite1d_zero, fillHermite1d_one 1 1 (le_refl 1)]
  refine zero_add_mul3_ne _ _ _ ?_ ?_ ?_
  · have := Real.exp_pos (-(1 / 2) * ((0 : ℝ) ^ 2 + (1 : ℝ) ^ 2))
    nlinarith
  · exact BASIS_NORMALIZATION_pos
  · exact mul_pos (mul_pos (intSqrt_pos 2 (by norm_num)) one_pos) BASIS_NORMALIZATION_pos

end Shapelet


